import Mathlib

/-!
Shallow embedding of the notification core of notificable-purr
(src/frontend/src/notifications/{history.ts, index.ts, permission.ts}).

Machine integers (JS numbers used as timestamps) are modelled as Nat;
JS strings as String; localStorage slots as a StoredValue that can be
absent (getItem returns null), corrupt (getItem throws, or JSON.parse
fails), or hold a parsed value.  JS NaN produced by parseInt is
modelled as the none case of Option Int.
-/

namespace NotifPurr

/-- Toast facet of a notification payload (ephemeral, platform-displayed). -/
structure Toast where
  title : String
  body : String
  icon : Option String
  action : Option String
deriving DecidableEq, Repr

/-- Banner facet of a notification payload (durable, history-displayed). -/
structure Banner where
  title : String
  body : String
  icon : Option String
deriving DecidableEq, Repr

/-- NotificationPayload: `Notification['data']` with two optional facets. -/
structure NotificationData where
  toast : Option Toast
  banner : Option Banner
deriving DecidableEq, Repr

/-- A persisted history record: the `NotificationHistory` type of history.ts. -/
structure HistoryRecord where
  key : String
  data : NotificationData
  time : Nat
deriving DecidableEq, Repr

/-- A localStorage slot: `getItem` returns null (absent), throws or fails to
parse (corrupt), or yields a value. -/
inductive StoredValue (α : Type) where
  | absent
  | corrupt
  | ok (v : α)
deriving DecidableEq, Repr

/-- `MAX_HISTORY_SIZE` from history.ts. -/
def MAX_HISTORY_SIZE : Nat := 64

/-- The comparator `(a, b) => a.time - b.time` of `saveHistory`:
ascending by time. -/
def byTimeAsc (a b : HistoryRecord) : Prop := a.time ≤ b.time

instance : DecidableRel byTimeAsc := fun a b => inferInstanceAs (Decidable (a.time ≤ b.time))

instance : IsTotal HistoryRecord byTimeAsc := ⟨fun a b => Nat.le_total a.time b.time⟩

instance : IsTrans HistoryRecord byTimeAsc := ⟨fun _ _ _ h1 h2 => Nat.le_trans h1 h2⟩

/-- The comparator `(a, b) => b.time - a.time` of `getNotificationHistory`:
descending by time. -/
def byTimeDesc (a b : HistoryRecord) : Prop := b.time ≤ a.time

instance : DecidableRel byTimeDesc := fun a b => inferInstanceAs (Decidable (b.time ≤ a.time))

instance : IsTotal HistoryRecord byTimeDesc := ⟨fun a b => Nat.le_total b.time a.time⟩

instance : IsTrans HistoryRecord byTimeDesc := ⟨fun _ _ _ h1 h2 => Nat.le_trans h2 h1⟩

/-- `history.sort((a, b) => a.time - b.time)`: JS Array.prototype.sort is a
stable sort (ES2019); insertion sort is stable with exactly the same
placement discipline. -/
def sortByTimeAsc (l : List HistoryRecord) : List HistoryRecord :=
  List.insertionSort byTimeAsc l

/-- `history.sort((a, b) => b.time - a.time)`. -/
def sortByTimeDesc (l : List HistoryRecord) : List HistoryRecord :=
  List.insertionSort byTimeDesc l

/-- `getStoredHistory` of history.ts: null storage yields `[]`, a throwing
read or unparsable JSON is caught and yields `[]`. -/
def getStoredHistory : StoredValue (List HistoryRecord) → List HistoryRecord
  | .absent => []
  | .corrupt => []
  | .ok v => v

/-- The capacity-enforcement step inside `saveHistory`: when the array
exceeds `MAX_HISTORY_SIZE`, sort ascending by time and keep the last
`MAX_HISTORY_SIZE` elements (`slice(history.length - MAX_HISTORY_SIZE)`). -/
def capHistory (history : List HistoryRecord) : List HistoryRecord :=
  if history.length > MAX_HISTORY_SIZE then
    (sortByTimeAsc history).drop (history.length - MAX_HISTORY_SIZE)
  else history

/-- `saveHistory` of history.ts acting on the storage slot: `setItem` may
throw (write failure), in which case the error is caught and the slot is
left unchanged. -/
def saveHistory (writeFails : Bool) (store : StoredValue (List HistoryRecord))
    (history : List HistoryRecord) : StoredValue (List HistoryRecord) :=
  if writeFails then store else .ok (capHistory history)

/-- `addToHistory` of history.ts acting on the storage slot:
no-op when `data.banner` is absent, otherwise read, push `{key, data,
time: Date.now()}` and save. -/
def addToHistory (writeFails : Bool) (key : String) (data : NotificationData)
    (now : Nat) (store : StoredValue (List HistoryRecord)) :
    StoredValue (List HistoryRecord) :=
  if data.banner.isNone then store
  else
    let history := getStoredHistory store
    saveHistory writeFails store (history ++ [{ key := key, data := data, time := now }])

/-- `getNotificationHistory` of history.ts: sort descending by time, then
filter by `time >= fromTime` when `fromTime` is a number (null = all). -/
def getNotificationHistory (fromTime : Option Nat)
    (store : StoredValue (List HistoryRecord)) : List HistoryRecord :=
  let history := sortByTimeDesc (getStoredHistory store)
  match fromTime with
  | none => history
  | some t => history.filter (fun n => decide (n.time ≥ t))

/-! ### Read-Tracking: `parseInt(s, 10)`, last-read timestamp -/

/-- Decimal value accumulation of JS `parseInt`: consume the longest digit
prefix, ignore the rest of the string. -/
def parseNatAcc : List Char → Nat → Nat
  | [], acc => acc
  | c :: cs, acc =>
    if c.isDigit then parseNatAcc cs (acc * 10 + (c.toNat - '0'.toNat)) else acc

/-- Unsigned part of JS `parseInt(s, 10)`: NaN (none) when the first
character is not a digit. -/
def parseUnsignedNat : List Char → Option Nat
  | [] => none
  | c :: cs =>
    if c.isDigit then some (parseNatAcc cs (c.toNat - '0'.toNat)) else none

/-- Sign handling of JS `parseInt(s, 10)` after whitespace stripping. -/
def parseIntSigned : List Char → Option Int
  | [] => none
  | c :: cs =>
    if c = '-' then (parseUnsignedNat cs).map (fun n => -(n : Int))
    else if c = '+' then (parseUnsignedNat cs).map (fun n => (n : Int))
    else (parseUnsignedNat (c :: cs)).map (fun n => (n : Int))

/-- Leading-whitespace stripping of JS `parseInt`. -/
def skipWhitespace : List Char → List Char
  | [] => []
  | c :: cs => if c.isWhitespace then skipWhitespace cs else c :: cs

/-- JS `parseInt(s, 10)`: skip leading whitespace, optional sign, longest
digit prefix; NaN (modelled as none) when no digits are consumed. -/
def parseInt10 (s : String) : Option Int :=
  parseIntSigned (skipWhitespace s.data)

/-- `getLastReadTimestamp` of history.ts: a null or empty stored string is
falsy and yields 0; a throwing read is caught and yields 0; otherwise the
result of `parseInt(timestamp, 10)` (possibly NaN). -/
def getLastReadTimestamp (store : StoredValue String) : Option Int :=
  match store with
  | .absent => some 0
  | .corrupt => some 0
  | .ok s => if s = "" then some 0 else parseInt10 s

/-- JS `>` against a possibly-NaN number: any comparison with NaN is false. -/
def jsGtNaN (t : Nat) (v : Option Int) : Bool :=
  match v with
  | none => false
  | some x => decide ((t : Int) > x)

/-- `getUnreadNotificationCount` of history.ts: count history records with
`time > lastRead`. -/
def getUnreadNotificationCount (historyStore : StoredValue (List HistoryRecord))
    (lastReadStore : StoredValue String) : Nat :=
  let lastRead := getLastReadTimestamp lastReadStore
  let history := getNotificationHistory none historyStore
  (history.filter (fun n => jsGtNaN n.time lastRead)).length

/-! ### Scheduler and Facade state (index.ts, permission.ts) -/

/-- `Notification.permission` of the Web Notification API. -/
inductive PermissionState where
  | granted
  | denied
  | defaultState
deriving DecidableEq, Repr

/-- A value of the `scheduledTimeouts` map of index.ts. -/
structure SchedEntry where
  timeoutId : Nat
  key : String
  data : NotificationData
  time : Nat
  save : Bool
deriving DecidableEq, Repr

/-- The closure passed to `setTimeout` in `pushNotification` (captures
`key`, `data`, `save`). -/
structure TimerCb where
  key : String
  data : NotificationData
  save : Bool
deriving DecidableEq, Repr

/-- A platform `new Notification(title, options)` display call. -/
structure BrowserNotif where
  title : String
  body : String
  icon : Option String
  tag : String
  requireInteraction : Bool
deriving DecidableEq, Repr

/-- `options` argument of `pushNotification` (undefined fields are none). -/
structure PushOptions where
  save : Option Bool := none
  time : Option Nat := none
deriving DecidableEq, Repr

/-- Whole-system state: the in-memory scheduler map, the armed platform
timers, the two localStorage slots, a log of platform display calls, a
count of Permission Gate consultations, and the live platform permission
facts. -/
structure SysState where
  scheduledTimeouts : List (String × SchedEntry)
  activeTimers : List (Nat × TimerCb)
  nextTimeoutId : Nat
  historyStore : StoredValue (List HistoryRecord)
  lastReadStore : StoredValue String
  displayed : List BrowserNotif
  badgeEvents : List Nat
  permQueries : Nat
  supported : Bool
  permission : PermissionState
  promptGrants : Bool
  historyWriteFails : Bool
  lastReadWriteFails : Bool
deriving DecidableEq, Repr

/-- First-match lookup in an association list: JS `Map.get`. -/
def mapGet {κ α : Type} [DecidableEq κ] : List (κ × α) → κ → Option α
  | [], _ => none
  | p :: ps, k => if p.1 = k then some p.2 else mapGet ps k

/-- JS `Map.delete`. -/
def mapDelete {κ α : Type} [DecidableEq κ] (k : κ) (m : List (κ × α)) : List (κ × α) :=
  m.filter (fun p => decide (p.1 ≠ k))

/-- JS `Map.set`: replace in place when present, else append. -/
def mapSet {κ α : Type} [DecidableEq κ] (k : κ) (v : α) (m : List (κ × α)) : List (κ × α) :=
  if m.any (fun p => decide (p.1 = k)) then
    m.map (fun p => if p.1 = k then (k, v) else p)
  else m ++ [(k, v)]

/-- `requestPermission` of permission.ts: unsupported platform is false;
granted is true; an undetermined state prompts once and returns the
grant result; denied is false without re-prompting. -/
def requestPermissionResult (s : SysState) : Bool :=
  if !s.supported then false
  else if s.permission = .granted then true
  else if s.permission ≠ .denied then s.promptGrants
  else false

/-- `showBrowserNotification` of index.ts: no-op when `data.toast` is
absent; otherwise one platform display call with `{body, icon, tag: key,
requireInteraction: false}`. -/
def showBrowserNotification (key : String) (data : NotificationData) (s : SysState) : SysState :=
  match data.toast with
  | none => s
  | some toast =>
    { s with displayed := s.displayed ++
        [{ title := toast.title, body := toast.body, icon := toast.icon,
           tag := key, requireInteraction := false }] }

/-- `clearTimeout(id)`: disarm the timer with that id (no-op when it has
already fired or never existed). -/
def clearTimeoutOp (id : Nat) (timers : List (Nat × TimerCb)) : List (Nat × TimerCb) :=
  timers.filter (fun p => decide (p.1 ≠ id))

/-- `clearNotification` of index.ts. -/
def clearNotification (key : String) (s : SysState) : SysState :=
  match mapGet s.scheduledTimeouts key with
  | some sched =>
    { s with activeTimers := clearTimeoutOp sched.timeoutId s.activeTimers,
             scheduledTimeouts := mapDelete key s.scheduledTimeouts }
  | none => s

/-- The JS truthiness test `!opts.time || opts.time <= Date.now()` of
`pushNotification` (`time` of 0 is falsy). -/
def timeIsFalsyOrPast (t : Option Nat) (now : Nat) : Bool :=
  match t with
  | none => true
  | some v => v == 0 || v ≤ now

/-- `addToHistory` lifted to the whole-system state. -/
def addToHistoryS (key : String) (data : NotificationData) (now : Nat) (s : SysState) : SysState :=
  { s with historyStore := addToHistory s.historyWriteFails key data now s.historyStore }

/-- The common prefix of `pushNotification`: clear any existing schedule
under the key, then consult the Permission Gate (counted). -/
def pushPre (key : String) (s : SysState) : SysState :=
  let s := clearNotification key s
  { s with permQueries := s.permQueries + 1 }

/-- `pushNotification` of index.ts.  `now` is the millisecond clock reading
during the call (the single-threaded model reads one clock value per
operation). -/
def pushNotification (key : String) (data : NotificationData)
    (options : Option PushOptions) (now : Nat) (s : SysState) : SysState :=
  let opts := options.getD {}
  let save := opts.save != some false
  let s := pushPre key s
  let hasPermission := requestPermissionResult s
  if !hasPermission then
    if save then addToHistoryS key data now s else s
  else if timeIsFalsyOrPast opts.time now then
    let s := showBrowserNotification key data s
    if save then addToHistoryS key data now s else s
  else
    match opts.time with
    | some t =>
      let tid := s.nextTimeoutId
      let cb : TimerCb := { key := key, data := data, save := save }
      let s := { s with
        activeTimers := s.activeTimers ++ [(tid, cb)],
        nextTimeoutId := s.nextTimeoutId + 1 }
      let entry : SchedEntry := { timeoutId := tid, key := key, data := data, time := t, save := save }
      { s with scheduledTimeouts := mapSet key entry s.scheduledTimeouts }
    | none => s

/-- Firing of an armed timer: the timer is one-shot (disarmed by firing),
then the stored closure runs: display, optional history append with
`time = Date.now()` at fire time, and removal of the scheduler-map key. -/
def fireTimer (id : Nat) (fireNow : Nat) (s : SysState) : SysState :=
  match mapGet s.activeTimers id with
  | none => s
  | some cb =>
    let s := { s with activeTimers := clearTimeoutOp id s.activeTimers }
    let s := showBrowserNotification cb.key cb.data s
    let s := if cb.save then addToHistoryS cb.key cb.data fireNow s else s
    { s with scheduledTimeouts := mapDelete cb.key s.scheduledTimeouts }

/-- `setLastReadTimestamp` of history.ts: persist `timestamp.toString()`
and dispatch a badge-update event carrying the recomputed unread count;
a throwing write is caught and leaves state unchanged. -/
def setLastReadTimestamp (timestamp : Nat) (s : SysState) : SysState :=
  if s.lastReadWriteFails then s
  else
    let s := { s with lastReadStore := .ok (Nat.repr timestamp) }
    { s with badgeEvents := s.badgeEvents ++
        [getUnreadNotificationCount s.historyStore s.lastReadStore] }

/-- `markAllNotificationsAsRead` of index.ts. -/
def markAllNotificationsAsRead (now : Nat) (s : SysState) : SysState :=
  setLastReadTimestamp now s

/-- The key `scheduled-$\x7bDate.now()\x7d` generated by
`scheduleNotification`. -/
def scheduleKey (now : Nat) : String :=
  "scheduled-" ++ Nat.repr now

/-- The payload built by `scheduleNotification`: matching toast/banner
facets from the same title and body. -/
def scheduleData (title body : String) (action : Option String) : NotificationData :=
  { toast := some { title := title, body := body, icon := none, action := action },
    banner := some { title := title, body := body, icon := none } }

/-- `scheduleNotification` of index.ts. -/
def scheduleNotification (title body : String) (delayMs : Nat) (action : Option String)
    (now : Nat) (s : SysState) : SysState :=
  pushNotification (scheduleKey now) (scheduleData title body action)
    (some { save := some true, time := some (now + delayMs) }) now s

/-! ### Lemmas: sorting and capacity -/

lemma sortByTimeAsc_perm (l : List HistoryRecord) : (sortByTimeAsc l).Perm l :=
  List.perm_insertionSort byTimeAsc l

lemma sortByTimeAsc_sorted (l : List HistoryRecord) : List.Sorted byTimeAsc (sortByTimeAsc l) :=
  List.sorted_insertionSort byTimeAsc l

lemma sortByTimeAsc_length (l : List HistoryRecord) : (sortByTimeAsc l).length = l.length :=
  (sortByTimeAsc_perm l).length_eq

lemma capHistory_length (h : List HistoryRecord) :
    (capHistory h).length = min h.length MAX_HISTORY_SIZE := by
  unfold capHistory
  split
  · rename_i hgt
    rw [List.length_drop, sortByTimeAsc_length]
    omega
  · rename_i hle
    omega

lemma capHistory_eq_of_gt {h : List HistoryRecord} (hgt : MAX_HISTORY_SIZE < h.length) :
    capHistory h = (sortByTimeAsc h).drop (h.length - MAX_HISTORY_SIZE) := by
  unfold capHistory
  rw [if_pos hgt]

lemma capHistory_eq_of_le {h : List HistoryRecord} (hle : h.length ≤ MAX_HISTORY_SIZE) :
    capHistory h = h := by
  unfold capHistory
  rw [if_neg]
  omega

lemma capHistory_evicts_oldest {h : List HistoryRecord} (hgt : MAX_HISTORY_SIZE < h.length) :
    h.Perm ((sortByTimeAsc h).take (h.length - MAX_HISTORY_SIZE) ++ capHistory h)
    ∧ ∀ d ∈ (sortByTimeAsc h).take (h.length - MAX_HISTORY_SIZE),
        ∀ k ∈ capHistory h, d.time ≤ k.time := by
  rw [capHistory_eq_of_gt hgt]
  constructor
  · rw [List.take_append_drop]
    exact (sortByTimeAsc_perm h).symm
  · have hs : List.Pairwise byTimeAsc (sortByTimeAsc h) := sortByTimeAsc_sorted h
    rw [← List.take_append_drop (h.length - MAX_HISTORY_SIZE) (sortByTimeAsc h)] at hs
    exact (List.pairwise_append.mp hs).2.2

/-- One `append` operation of the History Store: whether the write throws,
then the record fields. -/
structure AppendOp where
  writeFails : Bool
  key : String
  data : NotificationData
  time : Nat
deriving DecidableEq, Repr

/-- A sequence of `addToHistory` calls against the storage slot. -/
def runAppends (ops : List AppendOp) (store : StoredValue (List HistoryRecord)) :
    StoredValue (List HistoryRecord) :=
  ops.foldl (fun st op => addToHistory op.writeFails op.key op.data op.time st) store

lemma getStoredHistory_ok (l : List HistoryRecord) : getStoredHistory (.ok l) = l := rfl

lemma addToHistory_length_le {store : StoredValue (List HistoryRecord)}
    (hle : (getStoredHistory store).length ≤ MAX_HISTORY_SIZE)
    (wf : Bool) (k : String) (d : NotificationData) (t : Nat) :
    (getStoredHistory (addToHistory wf k d t store)).length ≤ MAX_HISTORY_SIZE := by
  unfold addToHistory saveHistory
  split
  · exact hle
  · split
    · exact hle
    · rw [getStoredHistory_ok, capHistory_length]
      omega

lemma runAppends_length_le (ops : List AppendOp) {store : StoredValue (List HistoryRecord)}
    (hinit : (getStoredHistory store).length ≤ MAX_HISTORY_SIZE) :
    (getStoredHistory (runAppends ops store)).length ≤ MAX_HISTORY_SIZE := by
  induction ops generalizing store with
  | nil => exact hinit
  | cons op ops ih =>
    exact ih (addToHistory_length_le hinit op.writeFails op.key op.data op.time)

/-! ### Lemmas: parseInt round-trips the decimal rendering of a Nat -/

/-- One decimal-digit accumulation step. -/
def digitStep (a : Nat) (c : Char) : Nat := a * 10 + (c.toNat - '0'.toNat)

lemma digitChar_isDigit {d : Nat} (h : d < 10) : (Nat.digitChar d).isDigit = true := by
  interval_cases d <;> decide

lemma digitChar_val {d : Nat} (h : d < 10) : (Nat.digitChar d).toNat - '0'.toNat = d := by
  interval_cases d <;> decide

lemma isDigit_ne_dash {c : Char} (h : c.isDigit = true) : c ≠ '-' := by
  intro he
  subst he
  exact absurd h (by decide)

lemma isDigit_ne_plus {c : Char} (h : c.isDigit = true) : c ≠ '+' := by
  intro he
  subst he
  exact absurd h (by decide)

lemma isDigit_not_whitespace {c : Char} (h : c.isDigit = true) : c.isWhitespace = false := by
  by_contra h2
  have h3 : c.isWhitespace = true := by
    cases hw : c.isWhitespace
    · exact absurd hw h2
    · rfl
  simp only [Char.isWhitespace, Bool.or_eq_true, decide_eq_true_eq] at h3
  rcases h3 with ((rfl | rfl) | rfl) | rfl <;> exact absurd h (by decide)

lemma toDigitsCore_shift (fuel : Nat) : ∀ (n : Nat) (ds : List Char),
    Nat.toDigitsCore 10 fuel n ds = Nat.toDigitsCore 10 fuel n [] ++ ds := by
  induction fuel with
  | zero => intro n ds; rfl
  | succ f ih =>
    intro n ds
    show (if n / 10 = 0 then _ else _) = (if n / 10 = 0 then _ else _) ++ ds
    by_cases h : n / 10 = 0
    · rw [if_pos h, if_pos h]
      rfl
    · rw [if_neg h, if_neg h, ih (n / 10) (Nat.digitChar (n % 10) :: ds),
        ih (n / 10) [Nat.digitChar (n % 10)]]
      simp

lemma toDigitsCore_digits (fuel : Nat) : ∀ n, n < fuel →
    ∀ c ∈ Nat.toDigitsCore 10 fuel n [], c.isDigit = true := by
  induction fuel with
  | zero => intro n h; exact absurd h (Nat.not_lt_zero n)
  | succ f ih =>
    intro n h c hc
    have hmod : n % 10 < 10 := Nat.mod_lt n (by norm_num)
    by_cases h0 : n / 10 = 0
    · have e : Nat.toDigitsCore 10 (f + 1) n [] = [Nat.digitChar (n % 10)] := by
        show (if n / 10 = 0 then _ else _) = _
        rw [if_pos h0]
      rw [e] at hc
      rcases List.mem_singleton.mp hc with rfl
      exact digitChar_isDigit hmod
    · have e : Nat.toDigitsCore 10 (f + 1) n [] =
          Nat.toDigitsCore 10 f (n / 10) [] ++ [Nat.digitChar (n % 10)] := by
        show (if n / 10 = 0 then _ else _) = _
        rw [if_neg h0, toDigitsCore_shift]
      rw [e] at hc
      rcases List.mem_append.mp hc with h1 | h1
      · have hpos : 0 < n := Nat.pos_of_ne_zero (fun hn => h0 (by simp [hn]))
        have hlt : n / 10 < n := Nat.div_lt_self hpos (by norm_num)
        exact ih (n / 10) (by omega) c h1
      · rcases List.mem_singleton.mp h1 with rfl
        exact digitChar_isDigit hmod

lemma toDigitsCore_foldl (fuel : Nat) : ∀ n acc, n < fuel →
    List.foldl digitStep acc (Nat.toDigitsCore 10 fuel n []) =
      acc * 10 ^ (Nat.toDigitsCore 10 fuel n []).length + n := by
  induction fuel with
  | zero => intro n acc h; exact absurd h (Nat.not_lt_zero n)
  | succ f ih =>
    intro n acc h
    have hmod : n % 10 < 10 := Nat.mod_lt n (by norm_num)
    by_cases h0 : n / 10 = 0
    · have e : Nat.toDigitsCore 10 (f + 1) n [] = [Nat.digitChar (n % 10)] := by
        show (if n / 10 = 0 then _ else _) = _
        rw [if_pos h0]
      have hn : n % 10 = n := by omega
      rw [e]
      simp only [List.foldl, List.length_singleton, pow_one, digitStep]
      rw [digitChar_val hmod, hn]
    · have e : Nat.toDigitsCore 10 (f + 1) n [] =
          Nat.toDigitsCore 10 f (n / 10) [] ++ [Nat.digitChar (n % 10)] := by
        show (if n / 10 = 0 then _ else _) = _
        rw [if_neg h0, toDigitsCore_shift]
      have hpos : 0 < n := Nat.pos_of_ne_zero (fun hn => h0 (by simp [hn]))
      have hlt : n / 10 < n := Nat.div_lt_self hpos (by norm_num)
      rw [e, List.foldl_append, ih (n / 10) acc (by omega)]
      simp only [List.foldl, List.length_append, List.length_singleton, digitStep]
      rw [digitChar_val hmod]
      have hdm : 10 * (n / 10) + n % 10 = n := Nat.div_add_mod n 10
      calc (acc * 10 ^ (Nat.toDigitsCore 10 f (n / 10) []).length + n / 10) * 10 + n % 10
          = acc * (10 ^ (Nat.toDigitsCore 10 f (n / 10) []).length * 10)
            + (10 * (n / 10) + n % 10) := by ring
        _ = acc * 10 ^ ((Nat.toDigitsCore 10 f (n / 10) []).length + 1) + n := by
            rw [hdm, pow_succ]

lemma toDigits_ne_nil (n : Nat) : Nat.toDigits 10 n ≠ [] := by
  show Nat.toDigitsCore 10 (n + 1) n [] ≠ []
  show (if n / 10 = 0 then _ else _) ≠ []
  by_cases h : n / 10 = 0
  · rw [if_pos h]
    simp
  · rw [if_neg h, toDigitsCore_shift]
    simp

lemma parseNatAcc_all_digits : ∀ {l : List Char}, (∀ c ∈ l, c.isDigit = true) →
    ∀ acc, parseNatAcc l acc = List.foldl digitStep acc l := by
  intro l
  induction l with
  | nil => intro _ acc; rfl
  | cons c cs ih =>
    intro h acc
    have hc : c.isDigit = true := h c (List.mem_cons_self c cs)
    show (if c.isDigit then _ else _) = _
    rw [if_pos hc]
    exact ih (fun x hx => h x (List.mem_cons_of_mem c hx)) _

lemma parseUnsignedNat_toDigits (n : Nat) :
    parseUnsignedNat (Nat.toDigits 10 n) = some n := by
  obtain ⟨c, cs, e⟩ := List.exists_cons_of_ne_nil (toDigits_ne_nil n)
  have hdigits : ∀ x ∈ Nat.toDigits 10 n, x.isDigit = true :=
    toDigitsCore_digits (n + 1) n (Nat.lt_succ_self n)
  have hfold : List.foldl digitStep 0 (Nat.toDigits 10 n) =
      0 * 10 ^ (Nat.toDigits 10 n).length + n :=
    toDigitsCore_foldl (n + 1) n 0 (Nat.lt_succ_self n)
  have hc : c.isDigit = true := hdigits c (by rw [e]; exact List.mem_cons_self c cs)
  rw [e] at hfold hdigits ⊢
  show (if c.isDigit then some (parseNatAcc cs (c.toNat - '0'.toNat)) else none) = some n
  rw [if_pos hc]
  have hacc : parseNatAcc cs (c.toNat - '0'.toNat) =
      List.foldl digitStep (c.toNat - '0'.toNat) cs :=
    parseNatAcc_all_digits (fun x hx => hdigits x (List.mem_cons_of_mem c hx)) _
  have hstep : digitStep 0 c = c.toNat - '0'.toNat := by simp [digitStep]
  rw [hacc]
  have : List.foldl digitStep 0 (c :: cs) = n := by rw [hfold]; ring
  rw [← hstep]
  exact congrArg some this

lemma parseInt10_repr (n : Nat) : parseInt10 (Nat.repr n) = some (n : Int) := by
  have hdata : (Nat.repr n).data = Nat.toDigits 10 n := rfl
  unfold parseInt10
  rw [hdata]
  obtain ⟨c, cs, e⟩ := List.exists_cons_of_ne_nil (toDigits_ne_nil n)
  have hdigits : ∀ x ∈ Nat.toDigits 10 n, x.isDigit = true :=
    toDigitsCore_digits (n + 1) n (Nat.lt_succ_self n)
  have hc : c.isDigit = true := hdigits c (by rw [e]; exact List.mem_cons_self c cs)
  have hpu := parseUnsignedNat_toDigits n
  rw [e] at hpu ⊢
  show parseIntSigned (if c.isWhitespace then skipWhitespace cs else c :: cs) = some (n : Int)
  rw [isDigit_not_whitespace hc]
  show parseIntSigned (c :: cs) = some (n : Int)
  simp only [parseIntSigned]
  rw [if_neg (isDigit_ne_dash hc), if_neg (isDigit_ne_plus hc), hpu]
  rfl

lemma repr_ne_empty (n : Nat) : Nat.repr n ≠ "" := by
  intro h
  have h2 : (Nat.repr n).data = Nat.toDigits 10 n := rfl
  rw [h] at h2
  exact toDigits_ne_nil n h2.symm

lemma natRepr_injective {n1 n2 : Nat} (h : Nat.repr n1 = Nat.repr n2) : n1 = n2 := by
  have h1 := parseInt10_repr n1
  rw [h, parseInt10_repr n2] at h1
  have h2 : (n2 : Int) = (n1 : Int) := Option.some.inj h1
  exact_mod_cast h2.symm

lemma getLastReadTimestamp_repr (n : Nat) :
    getLastReadTimestamp (.ok (Nat.repr n)) = some (n : Int) := by
  simp only [getLastReadTimestamp]
  rw [if_neg (repr_ne_empty n)]
  exact parseInt10_repr n

lemma scheduleKey_injective {n1 n2 : Nat} (h : scheduleKey n1 = scheduleKey n2) : n1 = n2 := by
  unfold scheduleKey at h
  have h2 : ("scheduled-" ++ Nat.repr n1).data = ("scheduled-" ++ Nat.repr n2).data := by rw [h]
  rw [String.data_append, String.data_append] at h2
  have h3 : (Nat.repr n1).data = (Nat.repr n2).data := List.append_cancel_left h2
  have h4 : Nat.repr n1 = Nat.repr n2 := by
    cases hr1 : Nat.repr n1 with
    | mk d1 =>
      cases hr2 : Nat.repr n2 with
      | mk d2 =>
        rw [hr1, hr2] at h3
        simp only at h3
        rw [h3]
  exact natRepr_injective h4

/-! ### Lemmas: association-list maps -/

lemma mapGet_append {κ α : Type} [DecidableEq κ] (m1 m2 : List (κ × α)) (k : κ) :
    mapGet (m1 ++ m2) k =
      match mapGet m1 k with
      | some v => some v
      | none => mapGet m2 k := by
  induction m1 with
  | nil => rfl
  | cons p ps ih =>
    by_cases h : p.1 = k
    · simp [mapGet, h]
    · simp [mapGet, h, ih]

lemma mapGet_none_iff {κ α : Type} [DecidableEq κ] (m : List (κ × α)) (k : κ) :
    mapGet m k = none ↔ ∀ p ∈ m, p.1 ≠ k := by
  induction m with
  | nil => simp [mapGet]
  | cons p ps ih =>
    by_cases h : p.1 = k
    · simp [mapGet, h]
    · simp [mapGet, h, ih]

lemma mapGet_mapDelete_self {κ α : Type} [DecidableEq κ] (m : List (κ × α)) (k : κ) :
    mapGet (mapDelete k m) k = none := by
  rw [mapGet_none_iff]
  intro p hp
  have := List.of_mem_filter hp
  simpa using this

lemma any_eq_false_of_mapGet_none {κ α : Type} [DecidableEq κ] {m : List (κ × α)} {k : κ}
    (h : mapGet m k = none) : m.any (fun p => decide (p.1 = k)) = false := by
  rw [mapGet_none_iff] at h
  simp only [List.any_eq_false, decide_eq_true_eq]
  exact h

lemma mapSet_of_mapGet_none {κ α : Type} [DecidableEq κ] {m : List (κ × α)} {k : κ}
    (h : mapGet m k = none) (v : α) : mapSet k v m = m ++ [(k, v)] := by
  unfold mapSet
  rw [any_eq_false_of_mapGet_none h]
  simp

lemma mapGet_filter_none {κ α : Type} [DecidableEq κ] {m : List (κ × α)} {k : κ}
    (f : κ × α → Bool) (h : mapGet m k = none) : mapGet (m.filter f) k = none := by
  rw [mapGet_none_iff] at h ⊢
  intro p hp
  exact h p (List.mem_of_mem_filter hp)

lemma clearTimeoutOp_eq_mapDelete (id : Nat) (timers : List (Nat × TimerCb)) :
    clearTimeoutOp id timers = mapDelete id timers := rfl

/-! ### Lemmas: field preservation of the facade operations -/

@[simp] lemma clear_nextTimeoutId (k : String) (s : SysState) :
    (clearNotification k s).nextTimeoutId = s.nextTimeoutId := by
  unfold clearNotification; cases mapGet s.scheduledTimeouts k <;> rfl

@[simp] lemma clear_historyStore (k : String) (s : SysState) :
    (clearNotification k s).historyStore = s.historyStore := by
  unfold clearNotification; cases mapGet s.scheduledTimeouts k <;> rfl

@[simp] lemma clear_lastReadStore (k : String) (s : SysState) :
    (clearNotification k s).lastReadStore = s.lastReadStore := by
  unfold clearNotification; cases mapGet s.scheduledTimeouts k <;> rfl

@[simp] lemma clear_displayed (k : String) (s : SysState) :
    (clearNotification k s).displayed = s.displayed := by
  unfold clearNotification; cases mapGet s.scheduledTimeouts k <;> rfl

@[simp] lemma clear_badgeEvents (k : String) (s : SysState) :
    (clearNotification k s).badgeEvents = s.badgeEvents := by
  unfold clearNotification; cases mapGet s.scheduledTimeouts k <;> rfl

@[simp] lemma clear_permQueries (k : String) (s : SysState) :
    (clearNotification k s).permQueries = s.permQueries := by
  unfold clearNotification; cases mapGet s.scheduledTimeouts k <;> rfl

@[simp] lemma clear_supported (k : String) (s : SysState) :
    (clearNotification k s).supported = s.supported := by
  unfold clearNotification; cases mapGet s.scheduledTimeouts k <;> rfl

@[simp] lemma clear_permission (k : String) (s : SysState) :
    (clearNotification k s).permission = s.permission := by
  unfold clearNotification; cases mapGet s.scheduledTimeouts k <;> rfl

@[simp] lemma clear_promptGrants (k : String) (s : SysState) :
    (clearNotification k s).promptGrants = s.promptGrants := by
  unfold clearNotification; cases mapGet s.scheduledTimeouts k <;> rfl

@[simp] lemma clear_historyWriteFails (k : String) (s : SysState) :
    (clearNotification k s).historyWriteFails = s.historyWriteFails := by
  unfold clearNotification; cases mapGet s.scheduledTimeouts k <;> rfl

@[simp] lemma clear_lastReadWriteFails (k : String) (s : SysState) :
    (clearNotification k s).lastReadWriteFails = s.lastReadWriteFails := by
  unfold clearNotification; cases mapGet s.scheduledTimeouts k <;> rfl

lemma clear_key_absent (k : String) (s : SysState) :
    mapGet (clearNotification k s).scheduledTimeouts k = none := by
  unfold clearNotification
  cases h : mapGet s.scheduledTimeouts k with
  | none => exact h
  | some e => exact mapGet_mapDelete_self s.scheduledTimeouts k

lemma requestPermissionResult_congr {s s' : SysState} (h1 : s'.supported = s.supported)
    (h2 : s'.permission = s.permission) (h3 : s'.promptGrants = s.promptGrants) :
    requestPermissionResult s' = requestPermissionResult s := by
  unfold requestPermissionResult
  rw [h1, h2, h3]

/-! ### Lemmas: pushNotification branch characterizations -/

@[simp] lemma pushPre_scheduledTimeouts (k : String) (s : SysState) :
    (pushPre k s).scheduledTimeouts = (clearNotification k s).scheduledTimeouts := rfl

@[simp] lemma pushPre_activeTimers (k : String) (s : SysState) :
    (pushPre k s).activeTimers = (clearNotification k s).activeTimers := rfl

@[simp] lemma pushPre_nextTimeoutId (k : String) (s : SysState) :
    (pushPre k s).nextTimeoutId = s.nextTimeoutId := by
  show (clearNotification k s).nextTimeoutId = s.nextTimeoutId
  simp

@[simp] lemma pushPre_historyStore (k : String) (s : SysState) :
    (pushPre k s).historyStore = s.historyStore := by
  show (clearNotification k s).historyStore = s.historyStore
  simp

@[simp] lemma pushPre_lastReadStore (k : String) (s : SysState) :
    (pushPre k s).lastReadStore = s.lastReadStore := by
  show (clearNotification k s).lastReadStore = s.lastReadStore
  simp

@[simp] lemma pushPre_displayed (k : String) (s : SysState) :
    (pushPre k s).displayed = s.displayed := by
  show (clearNotification k s).displayed = s.displayed
  simp

@[simp] lemma pushPre_badgeEvents (k : String) (s : SysState) :
    (pushPre k s).badgeEvents = s.badgeEvents := by
  show (clearNotification k s).badgeEvents = s.badgeEvents
  simp

@[simp] lemma pushPre_permQueries (k : String) (s : SysState) :
    (pushPre k s).permQueries = s.permQueries + 1 := by
  show (clearNotification k s).permQueries + 1 = s.permQueries + 1
  simp

@[simp] lemma pushPre_supported (k : String) (s : SysState) :
    (pushPre k s).supported = s.supported := by
  show (clearNotification k s).supported = s.supported
  simp

@[simp] lemma pushPre_permission (k : String) (s : SysState) :
    (pushPre k s).permission = s.permission := by
  show (clearNotification k s).permission = s.permission
  simp

@[simp] lemma pushPre_promptGrants (k : String) (s : SysState) :
    (pushPre k s).promptGrants = s.promptGrants := by
  show (clearNotification k s).promptGrants = s.promptGrants
  simp

@[simp] lemma pushPre_historyWriteFails (k : String) (s : SysState) :
    (pushPre k s).historyWriteFails = s.historyWriteFails := by
  show (clearNotification k s).historyWriteFails = s.historyWriteFails
  simp

@[simp] lemma pushPre_lastReadWriteFails (k : String) (s : SysState) :
    (pushPre k s).lastReadWriteFails = s.lastReadWriteFails := by
  show (clearNotification k s).lastReadWriteFails = s.lastReadWriteFails
  simp

@[simp] lemma requestPermissionResult_pushPre (k : String) (s : SysState) :
    requestPermissionResult (pushPre k s) = requestPermissionResult s :=
  requestPermissionResult_congr (pushPre_supported k s) (pushPre_permission k s)
    (pushPre_promptGrants k s)

lemma requestPermissionResult_def (s : SysState) :
    requestPermissionResult s =
      (if !s.supported then false
       else if s.permission = .granted then true
       else if s.permission ≠ .denied then s.promptGrants
       else false) := rfl

@[simp] lemma showBrowser_scheduledTimeouts (k : String) (d : NotificationData) (s : SysState) :
    (showBrowserNotification k d s).scheduledTimeouts = s.scheduledTimeouts := by
  unfold showBrowserNotification; cases d.toast <;> rfl

@[simp] lemma showBrowser_activeTimers (k : String) (d : NotificationData) (s : SysState) :
    (showBrowserNotification k d s).activeTimers = s.activeTimers := by
  unfold showBrowserNotification; cases d.toast <;> rfl

@[simp] lemma showBrowser_nextTimeoutId (k : String) (d : NotificationData) (s : SysState) :
    (showBrowserNotification k d s).nextTimeoutId = s.nextTimeoutId := by
  unfold showBrowserNotification; cases d.toast <;> rfl

@[simp] lemma showBrowser_historyStore (k : String) (d : NotificationData) (s : SysState) :
    (showBrowserNotification k d s).historyStore = s.historyStore := by
  unfold showBrowserNotification; cases d.toast <;> rfl

@[simp] lemma showBrowser_lastReadStore (k : String) (d : NotificationData) (s : SysState) :
    (showBrowserNotification k d s).lastReadStore = s.lastReadStore := by
  unfold showBrowserNotification; cases d.toast <;> rfl

@[simp] lemma showBrowser_badgeEvents (k : String) (d : NotificationData) (s : SysState) :
    (showBrowserNotification k d s).badgeEvents = s.badgeEvents := by
  unfold showBrowserNotification; cases d.toast <;> rfl

@[simp] lemma showBrowser_permQueries (k : String) (d : NotificationData) (s : SysState) :
    (showBrowserNotification k d s).permQueries = s.permQueries := by
  unfold showBrowserNotification; cases d.toast <;> rfl

@[simp] lemma showBrowser_supported (k : String) (d : NotificationData) (s : SysState) :
    (showBrowserNotification k d s).supported = s.supported := by
  unfold showBrowserNotification; cases d.toast <;> rfl

@[simp] lemma showBrowser_permission (k : String) (d : NotificationData) (s : SysState) :
    (showBrowserNotification k d s).permission = s.permission := by
  unfold showBrowserNotification; cases d.toast <;> rfl

@[simp] lemma showBrowser_promptGrants (k : String) (d : NotificationData) (s : SysState) :
    (showBrowserNotification k d s).promptGrants = s.promptGrants := by
  unfold showBrowserNotification; cases d.toast <;> rfl

@[simp] lemma showBrowser_historyWriteFails (k : String) (d : NotificationData) (s : SysState) :
    (showBrowserNotification k d s).historyWriteFails = s.historyWriteFails := by
  unfold showBrowserNotification; cases d.toast <;> rfl

@[simp] lemma showBrowser_lastReadWriteFails (k : String) (d : NotificationData) (s : SysState) :
    (showBrowserNotification k d s).lastReadWriteFails = s.lastReadWriteFails := by
  unfold showBrowserNotification; cases d.toast <;> rfl

@[simp] lemma addToHistoryS_scheduledTimeouts (k : String) (d : NotificationData) (now : Nat)
    (s : SysState) : (addToHistoryS k d now s).scheduledTimeouts = s.scheduledTimeouts := rfl

@[simp] lemma addToHistoryS_activeTimers (k : String) (d : NotificationData) (now : Nat)
    (s : SysState) : (addToHistoryS k d now s).activeTimers = s.activeTimers := rfl

@[simp] lemma addToHistoryS_nextTimeoutId (k : String) (d : NotificationData) (now : Nat)
    (s : SysState) : (addToHistoryS k d now s).nextTimeoutId = s.nextTimeoutId := rfl

@[simp] lemma addToHistoryS_displayed (k : String) (d : NotificationData) (now : Nat)
    (s : SysState) : (addToHistoryS k d now s).displayed = s.displayed := rfl

@[simp] lemma addToHistoryS_lastReadStore (k : String) (d : NotificationData) (now : Nat)
    (s : SysState) : (addToHistoryS k d now s).lastReadStore = s.lastReadStore := rfl

@[simp] lemma addToHistoryS_badgeEvents (k : String) (d : NotificationData) (now : Nat)
    (s : SysState) : (addToHistoryS k d now s).badgeEvents = s.badgeEvents := rfl

@[simp] lemma addToHistoryS_permQueries (k : String) (d : NotificationData) (now : Nat)
    (s : SysState) : (addToHistoryS k d now s).permQueries = s.permQueries := rfl

@[simp] lemma addToHistoryS_supported (k : String) (d : NotificationData) (now : Nat)
    (s : SysState) : (addToHistoryS k d now s).supported = s.supported := rfl

@[simp] lemma addToHistoryS_permission (k : String) (d : NotificationData) (now : Nat)
    (s : SysState) : (addToHistoryS k d now s).permission = s.permission := rfl

@[simp] lemma addToHistoryS_promptGrants (k : String) (d : NotificationData) (now : Nat)
    (s : SysState) : (addToHistoryS k d now s).promptGrants = s.promptGrants := rfl

@[simp] lemma addToHistoryS_historyWriteFails (k : String) (d : NotificationData) (now : Nat)
    (s : SysState) : (addToHistoryS k d now s).historyWriteFails = s.historyWriteFails := rfl

@[simp] lemma addToHistoryS_lastReadWriteFails (k : String) (d : NotificationData) (now : Nat)
    (s : SysState) : (addToHistoryS k d now s).lastReadWriteFails = s.lastReadWriteFails := rfl

lemma pushNotification_permQueries (k : String) (d : NotificationData) (o : Option PushOptions)
    (now : Nat) (s : SysState) :
    (pushNotification k d o now s).permQueries = s.permQueries + 1 := by
  unfold pushNotification
  dsimp only
  split
  · split <;> simp
  · split
    · split <;> simp
    · split <;> simp

lemma pushNotification_supported (k : String) (d : NotificationData) (o : Option PushOptions)
    (now : Nat) (s : SysState) :
    (pushNotification k d o now s).supported = s.supported := by
  unfold pushNotification
  dsimp only
  split
  · split <;> simp
  · split
    · split <;> simp
    · split <;> simp

lemma pushNotification_permission (k : String) (d : NotificationData) (o : Option PushOptions)
    (now : Nat) (s : SysState) :
    (pushNotification k d o now s).permission = s.permission := by
  unfold pushNotification
  dsimp only
  split
  · split <;> simp
  · split
    · split <;> simp
    · split <;> simp

lemma pushNotification_promptGrants (k : String) (d : NotificationData) (o : Option PushOptions)
    (now : Nat) (s : SysState) :
    (pushNotification k d o now s).promptGrants = s.promptGrants := by
  unfold pushNotification
  dsimp only
  split
  · split <;> simp
  · split
    · split <;> simp
    · split <;> simp

lemma requestPermissionResult_push (k : String) (d : NotificationData) (o : Option PushOptions)
    (now : Nat) (s : SysState) :
    requestPermissionResult (pushNotification k d o now s) = requestPermissionResult s :=
  requestPermissionResult_congr (pushNotification_supported k d o now s)
    (pushNotification_permission k d o now s) (pushNotification_promptGrants k d o now s)

lemma fireTimer_none {id : Nat} {s : SysState} (h : mapGet s.activeTimers id = none)
    (fnow : Nat) : fireTimer id fnow s = s := by
  unfold fireTimer
  rw [h]

lemma fireTimer_permQueries (id : Nat) (fnow : Nat) (s : SysState) :
    (fireTimer id fnow s).permQueries = s.permQueries := by
  unfold fireTimer
  cases h : mapGet s.activeTimers id with
  | none => rfl
  | some cb => simp [apply_ite SysState.permQueries]

lemma pushNotification_future (key : String) (data : NotificationData) (t now : Nat)
    (s : SysState) (hgrant : requestPermissionResult s = true) (ht0 : t ≠ 0)
    (hnow : ¬ t ≤ now) :
    pushNotification key data (some { save := some true, time := some t }) now s =
      { pushPre key s with
        activeTimers := (pushPre key s).activeTimers ++
          [(s.nextTimeoutId, { key := key, data := data, save := true })],
        nextTimeoutId := s.nextTimeoutId + 1,
        scheduledTimeouts := mapSet key
          { timeoutId := s.nextTimeoutId, key := key, data := data, time := t, save := true }
          (pushPre key s).scheduledTimeouts } := by
  have htf : timeIsFalsyOrPast (some t) now = false := by
    simp [timeIsFalsyOrPast, ht0, hnow]
  unfold pushNotification
  simp only [Option.getD, requestPermissionResult_pushPre, hgrant, htf, Bool.not_true,
    Bool.false_eq_true, if_false, pushPre_nextTimeoutId]
  rfl

lemma mapGet_mapSet_self {κ α : Type} [DecidableEq κ] {m : List (κ × α)} {k : κ}
    (h : mapGet m k = none) (v : α) : mapGet (mapSet k v m) k = some v := by
  rw [mapSet_of_mapGet_none h, mapGet_append, h]
  simp [mapGet]

lemma filter_key_mapSet {κ α : Type} [DecidableEq κ] {m : List (κ × α)} {k : κ}
    (h : mapGet m k = none) (v : α) :
    (mapSet k v m).filter (fun p => decide (p.1 = k)) = [(k, v)] := by
  rw [mapSet_of_mapGet_none h, List.filter_append]
  have h2 : m.filter (fun p => decide (p.1 = k)) = [] := by
    rw [List.filter_eq_nil_iff]
    intro p hp
    simp [(mapGet_none_iff m k).mp h p hp]
  rw [h2]
  simp

lemma clearNotification_some {key : String} {s : SysState} {e : SchedEntry}
    (h : mapGet s.scheduledTimeouts key = some e) :
    clearNotification key s =
      { s with activeTimers := clearTimeoutOp e.timeoutId s.activeTimers,
               scheduledTimeouts := mapDelete key s.scheduledTimeouts } := by
  unfold clearNotification
  rw [h]

/-! ### Lemmas: appending a newest record, unread count, branch forms -/

lemma sortByTimeDesc_perm (l : List HistoryRecord) : (sortByTimeDesc l).Perm l :=
  List.perm_insertionSort byTimeDesc l

lemma orderedInsert_append_max {x r : HistoryRecord} (hxr : x.time ≤ r.time) :
    ∀ l : List HistoryRecord, List.orderedInsert byTimeAsc x (l ++ [r]) =
      List.orderedInsert byTimeAsc x l ++ [r] := by
  intro l
  induction l with
  | nil =>
    have hb : byTimeAsc x r := hxr
    show (if byTimeAsc x r then _ else _) = _
    rw [if_pos hb]
    simp [List.orderedInsert]
  | cons y ys ih =>
    show (if byTimeAsc x y then _ else _) = (if byTimeAsc x y then _ else _) ++ [r]
    by_cases h : byTimeAsc x y
    · rw [if_pos h, if_pos h]
      rfl
    · rw [if_neg h, if_neg h]
      simp [ih]

lemma sortByTimeAsc_append_max {l : List HistoryRecord} {r : HistoryRecord}
    (h : ∀ x ∈ l, x.time ≤ r.time) :
    sortByTimeAsc (l ++ [r]) = sortByTimeAsc l ++ [r] := by
  induction l with
  | nil => rfl
  | cons a l ih =>
    show List.orderedInsert byTimeAsc a (sortByTimeAsc (l ++ [r])) =
      List.orderedInsert byTimeAsc a (sortByTimeAsc l) ++ [r]
    rw [ih (fun x hx => h x (List.mem_cons_of_mem a hx))]
    exact orderedInsert_append_max (h a (List.mem_cons_self a l)) _

lemma capHistory_append_le {h : List HistoryRecord} {r : HistoryRecord}
    (hlt : h.length < MAX_HISTORY_SIZE) : capHistory (h ++ [r]) = h ++ [r] := by
  apply capHistory_eq_of_le
  rw [List.length_append]
  simp
  omega

lemma capHistory_append_full {h : List HistoryRecord} {r : HistoryRecord}
    (heq : h.length = MAX_HISTORY_SIZE) (hmax : ∀ x ∈ h, x.time ≤ r.time) :
    capHistory (h ++ [r]) = (sortByTimeAsc h).drop 1 ++ [r] := by
  have hlen : (h ++ [r]).length = MAX_HISTORY_SIZE + 1 := by
    rw [List.length_append, heq]
    rfl
  rw [capHistory_eq_of_gt (by omega), hlen, sortByTimeAsc_append_max hmax]
  have h64 : (sortByTimeAsc h).length = MAX_HISTORY_SIZE := by
    rw [sortByTimeAsc_length, heq]
  rw [List.drop_append_eq_append_drop, h64]
  have : MAX_HISTORY_SIZE + 1 - MAX_HISTORY_SIZE = 1 := by omega
  rw [this]
  have : (1 : Nat) - MAX_HISTORY_SIZE = 0 := by
    unfold MAX_HISTORY_SIZE
    omega
  rw [this, List.drop_zero]

lemma mem_capHistory_append {h : List HistoryRecord} {r : HistoryRecord}
    (hlen : h.length ≤ MAX_HISTORY_SIZE) (hmax : ∀ x ∈ h, x.time ≤ r.time) :
    r ∈ capHistory (h ++ [r]) := by
  by_cases hc : h.length < MAX_HISTORY_SIZE
  · rw [capHistory_append_le hc]
    exact List.mem_append_right h (List.mem_singleton_self r)
  · rw [capHistory_append_full (by omega) hmax]
    exact List.mem_append_right _ (List.mem_singleton_self r)

lemma count_capHistory_append {h : List HistoryRecord} {r : HistoryRecord}
    (hlen : h.length ≤ MAX_HISTORY_SIZE) (hmax : ∀ x ∈ h, x.time ≤ r.time)
    (hnot : r ∉ h) : List.count r (capHistory (h ++ [r])) = 1 := by
  by_cases hc : h.length < MAX_HISTORY_SIZE
  · rw [capHistory_append_le hc, List.count_append]
    rw [List.count_eq_zero_of_not_mem hnot]
    simp
  · rw [capHistory_append_full (by omega) hmax, List.count_append]
    have h0 : List.count r (sortByTimeAsc h) = 0 := by
      rw [(sortByTimeAsc_perm h).count_eq]
      exact List.count_eq_zero_of_not_mem hnot
    have h1 : List.count r ((sortByTimeAsc h).drop 1) = 0 :=
      Nat.le_zero.mp (h0 ▸ (List.drop_sublist 1 (sortByTimeAsc h)).count_le r)
    rw [h1]
    simp

lemma markAllRead_stores (now : Nat) {s : SysState} (hwf : s.lastReadWriteFails = false) :
    (markAllNotificationsAsRead now s).historyStore = s.historyStore
    ∧ (markAllNotificationsAsRead now s).lastReadStore = .ok (Nat.repr now)
    ∧ (markAllNotificationsAsRead now s).lastReadWriteFails = false := by
  unfold markAllNotificationsAsRead setLastReadTimestamp
  rw [hwf]
  refine ⟨by simp, by simp, by simp⟩

lemma unreadCount_eq_filter (hs : StoredValue (List HistoryRecord)) (ls : StoredValue String) :
    getUnreadNotificationCount hs ls =
      ((getStoredHistory hs).filter
        (fun r => jsGtNaN r.time (getLastReadTimestamp ls))).length := by
  unfold getUnreadNotificationCount getNotificationHistory
  exact ((sortByTimeDesc_perm (getStoredHistory hs)).filter _).length_eq

lemma unread_zero_after_mark {s : SysState} (now : Nat) (hwf : s.lastReadWriteFails = false)
    (hle : ∀ r ∈ getStoredHistory s.historyStore, r.time ≤ now) :
    getUnreadNotificationCount (markAllNotificationsAsRead now s).historyStore
      (markAllNotificationsAsRead now s).lastReadStore = 0 := by
  obtain ⟨h1, h2, _⟩ := markAllRead_stores now hwf
  rw [h1, h2, unreadCount_eq_filter, getLastReadTimestamp_repr, List.length_eq_zero]
  rw [List.filter_eq_nil_iff]
  intro r hr
  have ht : r.time ≤ now := hle r hr
  simp only [jsGtNaN, decide_eq_true_eq, not_lt]
  exact_mod_cast ht

lemma clearNotification_none {k : String} {s : SysState}
    (h : mapGet s.scheduledTimeouts k = none) : clearNotification k s = s := by
  unfold clearNotification
  rw [h]

lemma mapGet_append_self {κ α : Type} [DecidableEq κ] {m : List (κ × α)} {k : κ}
    (h : mapGet m k = none) (v : α) : mapGet (m ++ [(k, v)]) k = some v := by
  rw [mapGet_append, h]
  simp [mapGet]

lemma mapGet_clear_activeTimers_none {id : Nat} {s : SysState} (k : String)
    (h : mapGet s.activeTimers id = none) :
    mapGet (clearNotification k s).activeTimers id = none := by
  unfold clearNotification
  cases hm : mapGet s.scheduledTimeouts k with
  | none => exact h
  | some e => exact mapGet_filter_none _ h

lemma fireTimer_some {id : Nat} (fnow : Nat) {s : SysState} {cb : TimerCb}
    (h : mapGet s.activeTimers id = some cb) :
    fireTimer id fnow s =
      { (if cb.save then
           addToHistoryS cb.key cb.data fnow
             (showBrowserNotification cb.key cb.data
               { s with activeTimers := clearTimeoutOp id s.activeTimers })
         else showBrowserNotification cb.key cb.data
               { s with activeTimers := clearTimeoutOp id s.activeTimers }) with
        scheduledTimeouts :=
          mapDelete cb.key
            (if cb.save then
               addToHistoryS cb.key cb.data fnow
                 (showBrowserNotification cb.key cb.data
                   { s with activeTimers := clearTimeoutOp id s.activeTimers })
             else showBrowserNotification cb.key cb.data
                   { s with activeTimers := clearTimeoutOp id s.activeTimers }).scheduledTimeouts } := by
  unfold fireTimer
  rw [h]

lemma pushNotification_denied (key : String) (data : NotificationData) (o : Option PushOptions)
    (now : Nat) (s : SysState) (hdeny : requestPermissionResult s = false)
    (hsave : (o.getD {}).save ≠ some false) :
    pushNotification key data o now s = addToHistoryS key data now (pushPre key s) := by
  have hb : ((o.getD {}).save != some false) = true := by
    simp [bne_iff_ne, hsave]
  unfold pushNotification
  dsimp only
  rw [requestPermissionResult_pushPre, hdeny, hb]
  simp

lemma pushNotification_immediate (key : String) (data : NotificationData)
    (now : Nat) (s : SysState) (hgrant : requestPermissionResult s = true) :
    pushNotification key data (some { save := some true, time := none }) now s =
      addToHistoryS key data now (showBrowserNotification key data (pushPre key s)) := by
  unfold pushNotification
  dsimp only
  rw [requestPermissionResult_pushPre, hgrant]
  simp [timeIsFalsyOrPast]

/-! ### Claim theorems -/

/-- C1: for every sequence of append operations the History Store never
holds more than `MAX_HISTORY_SIZE = 64` records, and whenever the
capacity is exceeded the retained set is exactly the 64 most-recent-by-time
records: the store splits (up to permutation) into an evicted part and the
kept part of length 64, with every evicted record no newer than every kept
record, via a deterministic stable sort. -/
theorem claim_C1_history_capacity (ops : List AppendOp) (store : StoredValue (List HistoryRecord))
    (hinit : (getStoredHistory store).length ≤ MAX_HISTORY_SIZE)
    (h : List HistoryRecord) (hgt : MAX_HISTORY_SIZE < h.length) :
    (getStoredHistory (runAppends ops store)).length ≤ MAX_HISTORY_SIZE
    ∧ (capHistory h).length = MAX_HISTORY_SIZE
    ∧ h.Perm ((sortByTimeAsc h).take (h.length - MAX_HISTORY_SIZE) ++ capHistory h)
    ∧ ∀ d ∈ (sortByTimeAsc h).take (h.length - MAX_HISTORY_SIZE),
        ∀ k ∈ capHistory h, d.time ≤ k.time := by
  refine ⟨runAppends_length_le ops hinit, ?_, (capHistory_evicts_oldest hgt).1,
    (capHistory_evicts_oldest hgt).2⟩
  rw [capHistory_length]
  omega

/-- C2: registering under a key that already has a pending entry cancels
that entry first: after two consecutive register calls (future-time pushes)
for the same key, the scheduler map holds exactly one pending entry for the
key, it is the second one, and the first one's timer is disarmed, so the
first entry can never fire (firing its timeout id is a no-op forever). -/
theorem claim_C2_register_replaces (key : String) (d1 d2 : NotificationData)
    (t1 t2 now1 now2 : Nat) (s : SysState)
    (hgrant : requestPermissionResult s = true)
    (ht1 : t1 ≠ 0) (hnow1 : ¬ t1 ≤ now1) (ht2 : t2 ≠ 0) (hnow2 : ¬ t2 ≤ now2) :
    mapGet (pushNotification key d2 (some { save := some true, time := some t2 }) now2
        (pushNotification key d1 (some { save := some true, time := some t1 }) now1 s)).scheduledTimeouts
        key =
      some { timeoutId := s.nextTimeoutId + 1, key := key, data := d2, time := t2, save := true }
    ∧ ((pushNotification key d2 (some { save := some true, time := some t2 }) now2
        (pushNotification key d1 (some { save := some true, time := some t1 }) now1 s)).scheduledTimeouts.filter
          (fun p => decide (p.1 = key))).length = 1
    ∧ ∀ fnow, fireTimer s.nextTimeoutId fnow
        (pushNotification key d2 (some { save := some true, time := some t2 }) now2
          (pushNotification key d1 (some { save := some true, time := some t1 }) now1 s)) =
        pushNotification key d2 (some { save := some true, time := some t2 }) now2
          (pushNotification key d1 (some { save := some true, time := some t1 }) now1 s) := by
  have e1 := pushNotification_future key d1 t1 now1 s hgrant ht1 hnow1
  have hgrant1 : requestPermissionResult
      (pushNotification key d1 (some { save := some true, time := some t1 }) now1 s) = true := by
    rw [requestPermissionResult_push]
    exact hgrant
  have e2 := pushNotification_future key d2 t2 now2 _ hgrant1 ht2 hnow2
  set P1 := pushNotification key d1 (some { save := some true, time := some t1 }) now1 s with hP1
  set P2 := pushNotification key d2 (some { save := some true, time := some t2 }) now2 P1 with hP2
  have hnid1 : P1.nextTimeoutId = s.nextTimeoutId + 1 := by rw [e1]
  have hsched1 : mapGet P1.scheduledTimeouts key =
      some { timeoutId := s.nextTimeoutId, key := key, data := d1, time := t1, save := true } := by
    rw [e1]
    exact mapGet_mapSet_self (clear_key_absent key s) _
  have hA : mapGet P2.scheduledTimeouts key =
      some { timeoutId := P1.nextTimeoutId, key := key, data := d2, time := t2, save := true } := by
    rw [e2]
    exact mapGet_mapSet_self (clear_key_absent key P1) _
  rw [hnid1] at hA
  have hB : P2.scheduledTimeouts.filter (fun p => decide (p.1 = key)) =
      [(key, { timeoutId := P1.nextTimeoutId, key := key, data := d2, time := t2, save := true })] := by
    rw [e2]
    exact filter_key_mapSet (clear_key_absent key P1) _
  have hC : mapGet P2.activeTimers s.nextTimeoutId = none := by
    rw [e2]
    show mapGet ((clearNotification key P1).activeTimers ++
      [(P1.nextTimeoutId, { key := key, data := d2, save := true })]) s.nextTimeoutId = none
    rw [clearNotification_some hsched1]
    show mapGet (clearTimeoutOp s.nextTimeoutId P1.activeTimers ++
      [(P1.nextTimeoutId, { key := key, data := d2, save := true })]) s.nextTimeoutId = none
    rw [mapGet_append, clearTimeoutOp_eq_mapDelete, mapGet_mapDelete_self]
    simp [mapGet, hnid1]
  exact ⟨hA, by rw [hB]; rfl, fun fnow => fireTimer_none hC fnow⟩

lemma fireTimer_perm_independent (id fnow : Nat) (s : SysState) (p : PermissionState)
    (sup g : Bool) :
    fireTimer id fnow { s with permission := p, supported := sup, promptGrants := g } =
      { fireTimer id fnow s with permission := p, supported := sup, promptGrants := g } := by
  unfold fireTimer
  dsimp only
  cases h : mapGet s.activeTimers id with
  | none => rfl
  | some cb =>
    cases hd : cb.data.toast <;> cases hs : cb.save <;>
      simp [showBrowserNotification, addToHistoryS, hd, hs]

/-- C10: the Permission Gate is consulted exactly once per push, at push
time; a timer fire consults it zero times, and the whole effect of a fire
is independent of the live permission state at fire time (changing the
permission fields commutes with firing). -/
theorem claim_C10_gate_once (k : String) (d : NotificationData) (o : Option PushOptions)
    (now id fnow : Nat) (s : SysState) :
    (pushNotification k d o now s).permQueries = s.permQueries + 1
    ∧ (fireTimer id fnow s).permQueries = s.permQueries
    ∧ ∀ (p : PermissionState) (sup g : Bool),
        fireTimer id fnow { s with permission := p, supported := sup, promptGrants := g } =
          { fireTimer id fnow s with permission := p, supported := sup, promptGrants := g } :=
  ⟨pushNotification_permQueries k d o now s, fireTimer_permQueries id fnow s,
    fun p sup g => fireTimer_perm_independent id fnow s p sup g⟩

/-- A sample payload with both facets. -/
def sampleData : NotificationData :=
  { toast := some { title := "T", body := "B", icon := none, action := none },
    banner := some { title := "T", body := "B", icon := none } }

/-- A sample initial state: granted permission, empty stores. -/
def sampleState : SysState :=
  { scheduledTimeouts := [], activeTimers := [], nextTimeoutId := 0,
    historyStore := .ok [], lastReadStore := .absent, displayed := [], badgeEvents := [],
    permQueries := 0, supported := true, permission := .granted, promptGrants := false,
    historyWriteFails := false, lastReadWriteFails := false }

/-- Witness for C2 at a concrete state: two registers for key "k" at clock
10 and 20 with fire times 100 and 200. -/
theorem claim_C2_witness :
    (requestPermissionResult sampleState = true ∧ (100 : Nat) ≠ 0 ∧ ¬ (100 : Nat) ≤ 10
      ∧ (200 : Nat) ≠ 0 ∧ ¬ (200 : Nat) ≤ 20)
    ∧ (mapGet (pushNotification "k" sampleData (some { save := some true, time := some 200 }) 20
        (pushNotification "k" sampleData (some { save := some true, time := some 100 }) 10
          sampleState)).scheduledTimeouts "k" =
      some { timeoutId := sampleState.nextTimeoutId + 1, key := "k", data := sampleData,
             time := 200, save := true }
    ∧ ((pushNotification "k" sampleData (some { save := some true, time := some 200 }) 20
        (pushNotification "k" sampleData (some { save := some true, time := some 100 }) 10
          sampleState)).scheduledTimeouts.filter (fun p => decide (p.1 = "k"))).length = 1
    ∧ ∀ fnow, fireTimer sampleState.nextTimeoutId fnow
        (pushNotification "k" sampleData (some { save := some true, time := some 200 }) 20
          (pushNotification "k" sampleData (some { save := some true, time := some 100 }) 10
            sampleState)) =
        pushNotification "k" sampleData (some { save := some true, time := some 200 }) 20
          (pushNotification "k" sampleData (some { save := some true, time := some 100 }) 10
            sampleState)) :=
  ⟨⟨by decide, by decide, by decide, by decide, by decide⟩,
    claim_C2_register_replaces "k" sampleData sampleData 100 200 10 20 sampleState
      (by decide) (by decide) (by decide) (by decide) (by decide)⟩

/-- A sample record with the given timestamp. -/
def sampleRec (i : Nat) : HistoryRecord :=
  { key := "k",
    data := { toast := none, banner := some { title := "t", body := "b", icon := none } },
    time := i }

/-- A sample history of n records with distinct timestamps. -/
def sampleHist (n : Nat) : List HistoryRecord :=
  (List.range n).map sampleRec

/-- A sample append sequence. -/
def sampleOps : List AppendOp :=
  [{ writeFails := false, key := "a",
     data := { toast := none, banner := some { title := "t", body := "b", icon := none } },
     time := 5 },
   { writeFails := true, key := "b",
     data := { toast := none, banner := some { title := "t", body := "b", icon := none } },
     time := 6 }]

/-- Witness for C1 at a concrete store of 3 records, a 2-operation append
sequence, and a concrete overfull list of 65 records. -/
theorem claim_C1_witness :
    ((getStoredHistory (.ok (sampleHist 3))).length ≤ MAX_HISTORY_SIZE
      ∧ MAX_HISTORY_SIZE < (sampleHist 65).length)
    ∧ ((getStoredHistory (runAppends sampleOps (.ok (sampleHist 3)))).length ≤ MAX_HISTORY_SIZE
      ∧ (capHistory (sampleHist 65)).length = MAX_HISTORY_SIZE
      ∧ (sampleHist 65).Perm ((sortByTimeAsc (sampleHist 65)).take
          ((sampleHist 65).length - MAX_HISTORY_SIZE) ++ capHistory (sampleHist 65))
      ∧ ∀ d ∈ (sortByTimeAsc (sampleHist 65)).take ((sampleHist 65).length - MAX_HISTORY_SIZE),
          ∀ k ∈ capHistory (sampleHist 65), d.time ≤ k.time) :=
  ⟨⟨by decide, by decide⟩,
    claim_C1_history_capacity sampleOps (.ok (sampleHist 3)) (by decide) (sampleHist 65) (by decide)⟩

/-- A sample state holding three history records (times 0, 1, 2). -/
def sampleStateH : SysState :=
  { sampleState with historyStore := .ok (sampleHist 3) }

/-- C3: the unread count equals the number of history records with time
strictly greater than the read cursor; markAsRead (cursor := now, with
every record no newer than now and a succeeding write) drives the unread
count to 0 and is idempotent: a second markAsRead still yields 0. -/
theorem claim_C3_unread_invariant (hs : StoredValue (List HistoryRecord))
    (ls : StoredValue String) (s : SysState) (now now2 : Nat)
    (hwf : s.lastReadWriteFails = false)
    (hle : ∀ r ∈ getStoredHistory s.historyStore, r.time ≤ now)
    (hnn : now ≤ now2) :
    getUnreadNotificationCount hs ls =
      ((getStoredHistory hs).filter
        (fun r => jsGtNaN r.time (getLastReadTimestamp ls))).length
    ∧ getUnreadNotificationCount (markAllNotificationsAsRead now s).historyStore
        (markAllNotificationsAsRead now s).lastReadStore = 0
    ∧ getUnreadNotificationCount
        (markAllNotificationsAsRead now2 (markAllNotificationsAsRead now s)).historyStore
        (markAllNotificationsAsRead now2 (markAllNotificationsAsRead now s)).lastReadStore
        = 0 := by
  obtain ⟨h1, h2, h3⟩ := markAllRead_stores now hwf
  refine ⟨unreadCount_eq_filter hs ls, unread_zero_after_mark now hwf hle, ?_⟩
  apply unread_zero_after_mark now2 h3
  rw [h1]
  intro r hr
  exact le_trans (hle r hr) hnn

/-- Witness for C3 at a state with three records (times 0, 1, 2), cursor
slot absent, marking read at clock 10 then 20. -/
theorem claim_C3_witness :
    (sampleStateH.lastReadWriteFails = false
      ∧ (∀ r ∈ getStoredHistory sampleStateH.historyStore, r.time ≤ 10)
      ∧ (10 : Nat) ≤ 20)
    ∧ (getUnreadNotificationCount (.ok (sampleHist 3)) .absent =
        ((getStoredHistory (.ok (sampleHist 3))).filter
          (fun r => jsGtNaN r.time (getLastReadTimestamp .absent))).length
    ∧ getUnreadNotificationCount (markAllNotificationsAsRead 10 sampleStateH).historyStore
        (markAllNotificationsAsRead 10 sampleStateH).lastReadStore = 0
    ∧ getUnreadNotificationCount
        (markAllNotificationsAsRead 20 (markAllNotificationsAsRead 10 sampleStateH)).historyStore
        (markAllNotificationsAsRead 20 (markAllNotificationsAsRead 10 sampleStateH)).lastReadStore
        = 0) :=
  ⟨⟨by decide, by decide, by decide⟩,
    claim_C3_unread_invariant (.ok (sampleHist 3)) .absent sampleStateH 10 20
      (by decide) (by decide) (by decide)⟩

/-- C7: persistence faults degrade, never propagate: an unreadable or
unparsable history slot makes listSince return the empty sequence (and the
unread count 0), and a failing write leaves the slot unchanged (the write
is dropped).  Every operation here is a total function: no History Store
operation throws to its caller. -/
theorem claim_C7_persistence_faults (fromTime : Option Nat) (ls : StoredValue String)
    (store : StoredValue (List HistoryRecord)) (h : List HistoryRecord)
    (k : String) (d : NotificationData) (t : Nat) :
    getNotificationHistory fromTime .corrupt = []
    ∧ getNotificationHistory fromTime .absent = []
    ∧ getStoredHistory .corrupt = []
    ∧ getUnreadNotificationCount .corrupt ls = 0
    ∧ saveHistory true store h = store
    ∧ addToHistory true k d t store = store := by
  refine ⟨?_, ?_, rfl, ?_, ?_, ?_⟩
  · cases fromTime <;> rfl
  · cases fromTime <;> rfl
  · rfl
  · simp [saveHistory]
  · cases hb : d.banner <;> simp [addToHistory, saveHistory, hb]

/-- C8 counterexample: the generated key is the string
scheduled-(Date.now()), so two distinct schedule calls in the same
millisecond share a key: per-call key uniqueness, as the claim states it,
is false. -/
theorem claim_C8_counterexample :
    ¬ (∀ (title1 body1 : String) (delay1 : Nat) (action1 : Option String) (now1 : Nat)
         (title2 body2 : String) (delay2 : Nat) (action2 : Option String) (now2 : Nat),
        (title1, body1, delay1, action1, now1) ≠ (title2, body2, delay2, action2, now2) →
        scheduleKey now1 ≠ scheduleKey now2) := by
  intro hclaim
  exact hclaim "A" "B" 10 none 5 "X" "Y" 20 none 5 (by decide) rfl

/-- C8 (amended): schedule builds matching toast and banner facets from the
same title and body, generates a time-prefixed key that is unique across
calls at distinct clock readings (two calls within the same millisecond
share a key), and delegates to push with time = now + delayMs. -/
theorem claim_C8_schedule (title body : String) (delayMs : Nat) (action : Option String)
    (now n1 n2 : Nat) (s : SysState) (hne : n1 ≠ n2) :
    (scheduleData title body action).toast =
        some { title := title, body := body, icon := none, action := action }
    ∧ (scheduleData title body action).banner =
        some { title := title, body := body, icon := none }
    ∧ scheduleKey now = "scheduled-" ++ Nat.repr now
    ∧ scheduleKey n1 ≠ scheduleKey n2
    ∧ scheduleNotification title body delayMs action now s =
        pushNotification (scheduleKey now) (scheduleData title body action)
          (some { save := some true, time := some (now + delayMs) }) now s :=
  ⟨rfl, rfl, rfl, fun h => hne (scheduleKey_injective h), rfl⟩

/-- Witness for C8 at concrete arguments and distinct clock readings 1, 2. -/
theorem claim_C8_witness :
    (1 : Nat) ≠ 2
    ∧ ((scheduleData "T" "B" none).toast =
        some { title := "T", body := "B", icon := none, action := none }
    ∧ (scheduleData "T" "B" none).banner =
        some { title := "T", body := "B", icon := none }
    ∧ scheduleKey 7 = "scheduled-" ++ Nat.repr 7
    ∧ scheduleKey 1 ≠ scheduleKey 2
    ∧ scheduleNotification "T" "B" 1000 none 7 sampleState =
        pushNotification (scheduleKey 7) (scheduleData "T" "B" none)
          (some { save := some true, time := some (7 + 1000) }) 7 sampleState) :=
  ⟨by decide, claim_C8_schedule "T" "B" 1000 none 7 1 2 sampleState (by decide)⟩

/-- C9 counterexample: a non-empty stored string that does not parse as a
number makes getLastReadTimestamp return NaN, not 0. -/
theorem claim_C9_counterexample :
    getLastReadTimestamp (.ok "abc") = none
    ∧ getLastReadTimestamp (.ok "abc") ≠ some 0 := by
  decide

/-- C9 (amended): getCursor returns the persisted cursor as an integer when
the slot holds the decimal rendering of a timestamp, and returns 0 when the
slot is unset (null), unreadable (the read throws), or holds the empty
string; but for a non-empty stored string it returns parseInt of the
string, which is NaN — not 0 — when the string has no leading integer. -/
theorem claim_C9_cursor_default (s : String) (hne : s ≠ "") (n : Nat) :
    getLastReadTimestamp .absent = some 0
    ∧ getLastReadTimestamp .corrupt = some 0
    ∧ getLastReadTimestamp (.ok "") = some 0
    ∧ getLastReadTimestamp (.ok s) = parseInt10 s
    ∧ getLastReadTimestamp (.ok (Nat.repr n)) = some (n : Int) := by
  refine ⟨rfl, rfl, rfl, ?_, getLastReadTimestamp_repr n⟩
  simp only [getLastReadTimestamp]
  rw [if_neg hne]

/-- Witness for C9 at the concrete stored string "abc" and timestamp 42. -/
theorem claim_C9_witness :
    ("abc" : String) ≠ ""
    ∧ (getLastReadTimestamp .absent = some 0
    ∧ getLastReadTimestamp .corrupt = some 0
    ∧ getLastReadTimestamp (.ok "") = some 0
    ∧ getLastReadTimestamp (.ok "abc") = parseInt10 "abc"
    ∧ getLastReadTimestamp (.ok (Nat.repr 42)) = some ((42 : Nat) : Int)) :=
  ⟨by decide, claim_C9_cursor_default "abc" (by decide) 42⟩

lemma addToHistoryS_historyStore (k : String) (d : NotificationData) (now : Nat)
    (s : SysState) : (addToHistoryS k d now s).historyStore =
      addToHistory s.historyWriteFails k d now s.historyStore := rfl

/-- C4: under denied or unavailable permission, a push with save performs no
platform display call; if the payload's banner is present exactly one
record { key, data, time = now } is appended (then capacity-capped) and it
is retained; if the banner is absent no record is appended. -/
theorem claim_C4_denied_durable (key : String) (data : NotificationData) (t : Option Nat)
    (now : Nat) (s : SysState)
    (hdeny : requestPermissionResult s = false)
    (hlen : (getStoredHistory s.historyStore).length ≤ MAX_HISTORY_SIZE)
    (hmax : ∀ x ∈ getStoredHistory s.historyStore, x.time ≤ now)
    (hwf : s.historyWriteFails = false) :
    (pushNotification key data (some { save := some true, time := t }) now s).displayed
      = s.displayed
    ∧ (data.banner.isSome = true →
        (pushNotification key data (some { save := some true, time := t }) now s).historyStore =
          .ok (capHistory (getStoredHistory s.historyStore ++
            [{ key := key, data := data, time := now }]))
        ∧ ({ key := key, data := data, time := now } : HistoryRecord) ∈
            getStoredHistory
              (pushNotification key data (some { save := some true, time := t }) now
                s).historyStore)
    ∧ (data.banner = none →
        (pushNotification key data (some { save := some true, time := t }) now s).historyStore
          = s.historyStore) := by
  have hd := pushNotification_denied key data (some { save := some true, time := t }) now s
    hdeny (by simp)
  refine ⟨?_, ?_, ?_⟩
  · rw [hd]
    simp
  · intro hb
    cases hbd : data.banner with
    | none =>
      rw [hbd] at hb
      simp at hb
    | some b =>
      have e : (addToHistoryS key data now (pushPre key s)).historyStore =
          .ok (capHistory (getStoredHistory s.historyStore ++
            [{ key := key, data := data, time := now }])) := by
        rw [addToHistoryS_historyStore, pushPre_historyWriteFails, pushPre_historyStore, hwf]
        simp [addToHistory, saveHistory, hbd]
      rw [hd, e]
      exact ⟨rfl, mem_capHistory_append hlen hmax⟩
  · intro hb
    rw [hd, addToHistoryS_historyStore, pushPre_historyWriteFails, pushPre_historyStore]
    simp [addToHistory, hb]

/-- A sample state whose platform permission is denied. -/
def sampleStateDenied : SysState :=
  { sampleState with permission := .denied }

/-- Witness for C4 at a concrete denied state, clock 50, key "k". -/
theorem claim_C4_witness :
    (requestPermissionResult sampleStateDenied = false
      ∧ (getStoredHistory sampleStateDenied.historyStore).length ≤ MAX_HISTORY_SIZE
      ∧ (∀ x ∈ getStoredHistory sampleStateDenied.historyStore, x.time ≤ 50)
      ∧ sampleStateDenied.historyWriteFails = false)
    ∧ ((pushNotification "k" sampleData (some { save := some true, time := none }) 50
          sampleStateDenied).displayed = sampleStateDenied.displayed
    ∧ (sampleData.banner.isSome = true →
        (pushNotification "k" sampleData (some { save := some true, time := none }) 50
          sampleStateDenied).historyStore =
          .ok (capHistory (getStoredHistory sampleStateDenied.historyStore ++
            [{ key := "k", data := sampleData, time := 50 }]))
        ∧ ({ key := "k", data := sampleData, time := 50 } : HistoryRecord) ∈
            getStoredHistory
              (pushNotification "k" sampleData (some { save := some true, time := none }) 50
                sampleStateDenied).historyStore)
    ∧ (sampleData.banner = none →
        (pushNotification "k" sampleData (some { save := some true, time := none }) 50
          sampleStateDenied).historyStore = sampleStateDenied.historyStore)) :=
  ⟨⟨by decide, by decide, by decide, by decide⟩,
    claim_C4_denied_durable "k" sampleData none 50 sampleStateDenied
      (by decide) (by decide) (by decide) (by decide)⟩

/-- A payload with a toast facet but no banner facet. -/
def toastOnlyData : NotificationData :=
  { toast := some { title := "T", body := "B", icon := none, action := none },
    banner := none }

/-- C5 counterexample: a granted push with save: true and time: null whose
payload has no banner facet appends no HistoryRecord at all, so "exactly
one HistoryRecord is appended" fails for such payloads. -/
theorem claim_C5_counterexample :
    requestPermissionResult sampleState = true
    ∧ (pushNotification "k" toastOnlyData (some { save := some true, time := none }) 5
        sampleState).historyStore = .ok []
    ∧ getStoredHistory (pushNotification "k" toastOnlyData
        (some { save := some true, time := none }) 5 sampleState).historyStore = [] := by
  decide

/-- C5 (amended): a granted push(key, payload, save: true, time: null)
whose payload carries a banner facet appends exactly one HistoryRecord
{ key, data = payload, time = now } — the data field equals the supplied
payload and the time is the call's clock reading — and the store becomes
the capacity-capped extension; with no banner facet, no record is
appended. -/
theorem claim_C5_roundtrip (key : String) (data : NotificationData) (now : Nat) (s : SysState)
    (hgrant : requestPermissionResult s = true)
    (hlen : (getStoredHistory s.historyStore).length ≤ MAX_HISTORY_SIZE)
    (hmax : ∀ x ∈ getStoredHistory s.historyStore, x.time ≤ now)
    (hwf : s.historyWriteFails = false)
    (hnot : ({ key := key, data := data, time := now } : HistoryRecord) ∉
      getStoredHistory s.historyStore) :
    (data.banner.isSome = true →
      (pushNotification key data (some { save := some true, time := none }) now s).historyStore
        = .ok (capHistory (getStoredHistory s.historyStore ++
            [{ key := key, data := data, time := now }]))
      ∧ List.count ({ key := key, data := data, time := now } : HistoryRecord)
          (getStoredHistory
            (pushNotification key data (some { save := some true, time := none }) now
              s).historyStore) = 1)
    ∧ (data.banner = none →
      (pushNotification key data (some { save := some true, time := none }) now s).historyStore
        = s.historyStore) := by
  have hi := pushNotification_immediate key data now s hgrant
  have hstore : (addToHistoryS key data now
      (showBrowserNotification key data (pushPre key s))).historyStore =
      addToHistory s.historyWriteFails key data now s.historyStore := by
    rw [addToHistoryS_historyStore, showBrowser_historyWriteFails, showBrowser_historyStore,
      pushPre_historyWriteFails, pushPre_historyStore]
  refine ⟨?_, ?_⟩
  · intro hb
    cases hbd : data.banner with
    | none =>
      rw [hbd] at hb
      simp at hb
    | some b =>
      have e : addToHistory s.historyWriteFails key data now s.historyStore =
          .ok (capHistory (getStoredHistory s.historyStore ++
            [{ key := key, data := data, time := now }])) := by
        rw [hwf]
        simp [addToHistory, saveHistory, hbd]
      rw [hi, hstore, e]
      exact ⟨rfl, count_capHistory_append hlen hmax hnot⟩
  · intro hb
    rw [hi, hstore]
    simp [addToHistory, hb]

/-- Witness for C5 at the granted sample state, key "k", clock 5. -/
theorem claim_C5_witness :
    (requestPermissionResult sampleState = true
      ∧ (getStoredHistory sampleState.historyStore).length ≤ MAX_HISTORY_SIZE
      ∧ (∀ x ∈ getStoredHistory sampleState.historyStore, x.time ≤ 5)
      ∧ sampleState.historyWriteFails = false
      ∧ ({ key := "k", data := sampleData, time := 5 } : HistoryRecord) ∉
          getStoredHistory sampleState.historyStore)
    ∧ ((sampleData.banner.isSome = true →
      (pushNotification "k" sampleData (some { save := some true, time := none }) 5
        sampleState).historyStore
        = .ok (capHistory (getStoredHistory sampleState.historyStore ++
            [{ key := "k", data := sampleData, time := 5 }]))
      ∧ List.count ({ key := "k", data := sampleData, time := 5 } : HistoryRecord)
          (getStoredHistory
            (pushNotification "k" sampleData (some { save := some true, time := none }) 5
              sampleState).historyStore) = 1)
    ∧ (sampleData.banner = none →
      (pushNotification "k" sampleData (some { save := some true, time := none }) 5
        sampleState).historyStore = sampleState.historyStore)) :=
  ⟨⟨by decide, by decide, by decide, by decide, by decide⟩,
    claim_C5_roundtrip "k" sampleData 5 sampleState
      (by decide) (by decide) (by decide) (by decide) (by decide)⟩

/-- C6: after a scheduled push fires, the fired record appears in history
exactly once (not zero or twice); a cancel issued after the fire is a
no-op (the key was already removed); and re-firing the same timeout id is
a no-op, so the display callback runs exactly once per entry. -/
theorem claim_C6_fire_once (key : String) (data : NotificationData) (t now1 now2 : Nat)
    (s : SysState)
    (hgrant : requestPermissionResult s = true) (ht0 : t ≠ 0) (hnow : ¬ t ≤ now1)
    (hfresh : mapGet s.activeTimers s.nextTimeoutId = none)
    (hbanner : data.banner.isSome = true)
    (hlen : (getStoredHistory s.historyStore).length ≤ MAX_HISTORY_SIZE)
    (hmax : ∀ x ∈ getStoredHistory s.historyStore, x.time ≤ now2)
    (hkey : ∀ r ∈ getStoredHistory s.historyStore, r.key ≠ key)
    (hwf : s.historyWriteFails = false) :
    List.count ({ key := key, data := data, time := now2 } : HistoryRecord)
      (getStoredHistory (fireTimer s.nextTimeoutId now2
        (pushNotification key data (some { save := some true, time := some t }) now1
          s)).historyStore) = 1
    ∧ clearNotification key (fireTimer s.nextTimeoutId now2
        (pushNotification key data (some { save := some true, time := some t }) now1 s)) =
      fireTimer s.nextTimeoutId now2
        (pushNotification key data (some { save := some true, time := some t }) now1 s)
    ∧ ∀ fnow, fireTimer s.nextTimeoutId fnow (fireTimer s.nextTimeoutId now2
        (pushNotification key data (some { save := some true, time := some t }) now1 s)) =
      fireTimer s.nextTimeoutId now2
        (pushNotification key data (some { save := some true, time := some t }) now1 s) := by
  have e1 := pushNotification_future key data t now1 s hgrant ht0 hnow
  set P1 := pushNotification key data (some { save := some true, time := some t }) now1 s
    with hP1
  have hact1 : mapGet P1.activeTimers s.nextTimeoutId =
      some { key := key, data := data, save := true } := by
    rw [e1]
    exact mapGet_append_self (mapGet_clear_activeTimers_none key hfresh) _
  have ef := fireTimer_some now2 hact1
  simp only [if_true] at ef
  have hhsP1 : P1.historyStore = s.historyStore := by
    rw [e1]
    exact pushPre_historyStore key s
  have hhwfP1 : P1.historyWriteFails = s.historyWriteFails := by
    rw [e1]
    exact pushPre_historyWriteFails key s
  have hstore : (fireTimer s.nextTimeoutId now2 P1).historyStore =
      addToHistory s.historyWriteFails key data now2 s.historyStore := by
    rw [ef]
    show (addToHistoryS key data now2 _).historyStore = _
    rw [addToHistoryS_historyStore, showBrowser_historyWriteFails, showBrowser_historyStore]
    show addToHistory P1.historyWriteFails key data now2 P1.historyStore = _
    rw [hhwfP1, hhsP1]
  have hnotmem : ({ key := key, data := data, time := now2 } : HistoryRecord) ∉
      getStoredHistory s.historyStore := fun hmem => hkey _ hmem rfl
  refine ⟨?_, ?_, ?_⟩
  · rw [hstore, hwf]
    cases hbd : data.banner with
    | none =>
      rw [hbd] at hbanner
      simp at hbanner
    | some b =>
      have e : addToHistory false key data now2 s.historyStore =
          .ok (capHistory (getStoredHistory s.historyStore ++
            [{ key := key, data := data, time := now2 }])) := by
        simp [addToHistory, saveHistory, hbd]
      rw [e, getStoredHistory_ok]
      exact count_capHistory_append hlen hmax hnotmem
  · apply clearNotification_none
    rw [ef]
    exact mapGet_mapDelete_self _ _
  · intro fnow
    apply fireTimer_none
    rw [ef]
    simp only [addToHistoryS_activeTimers, showBrowser_activeTimers,
      clearTimeoutOp_eq_mapDelete]
    exact mapGet_mapDelete_self _ _

/-- Witness for C6 at the granted sample state: schedule at clock 10 for
time 100, fire at clock 100, then cancel and refire. -/
theorem claim_C6_witness :
    (requestPermissionResult sampleState = true ∧ (100 : Nat) ≠ 0 ∧ ¬ (100 : Nat) ≤ 10
      ∧ mapGet sampleState.activeTimers sampleState.nextTimeoutId = none
      ∧ sampleData.banner.isSome = true
      ∧ (getStoredHistory sampleState.historyStore).length ≤ MAX_HISTORY_SIZE
      ∧ (∀ x ∈ getStoredHistory sampleState.historyStore, x.time ≤ 100)
      ∧ (∀ r ∈ getStoredHistory sampleState.historyStore, r.key ≠ "k")
      ∧ sampleState.historyWriteFails = false)
    ∧ (List.count ({ key := "k", data := sampleData, time := 100 } : HistoryRecord)
      (getStoredHistory (fireTimer sampleState.nextTimeoutId 100
        (pushNotification "k" sampleData (some { save := some true, time := some 100 }) 10
          sampleState)).historyStore) = 1
    ∧ clearNotification "k" (fireTimer sampleState.nextTimeoutId 100
        (pushNotification "k" sampleData (some { save := some true, time := some 100 }) 10
          sampleState)) =
      fireTimer sampleState.nextTimeoutId 100
        (pushNotification "k" sampleData (some { save := some true, time := some 100 }) 10
          sampleState)
    ∧ ∀ fnow, fireTimer sampleState.nextTimeoutId fnow (fireTimer sampleState.nextTimeoutId 100
        (pushNotification "k" sampleData (some { save := some true, time := some 100 }) 10
          sampleState)) =
      fireTimer sampleState.nextTimeoutId 100
        (pushNotification "k" sampleData (some { save := some true, time := some 100 }) 10
          sampleState)) :=
  ⟨⟨by decide, by decide, by decide, by decide, by decide, by decide, by decide, by decide,
     by decide⟩,
    claim_C6_fire_once "k" sampleData 100 10 100 sampleState
      (by decide) (by decide) (by decide) (by decide) (by decide) (by decide) (by decide)
      (by decide) (by decide)⟩

end NotifPurr
